import Mathlib

/-!
Shallow embedding of the file-ownership and storage-consistency core of the
mini-gdrive cloud-storage application (`app/routers/files.py`,
`app/models/file.py`).  The relational `files` table is modelled as a list of
`FileMeta` records, the S3 object store as an association list from keys to
objects, and each route handler as a pure function from an explicit system
state (plus its request inputs) to a response and a new state.
-/

set_option autoImplicit false

namespace MiniGDrive

/-- One row of the `files` table, translated from `app/models/file.py`
(`class FileMeta`).  Columns in source order: `id`, `original_name`,
`stored_name`, `path`, `size`, `uploaded_at`, `owner_id`.  Timestamps are unix
seconds as `Nat`. -/
structure FileMeta where
  id : Int
  original_name : String
  stored_name : String
  path : String
  size : Nat
  uploaded_at : Nat
  owner_id : Int
deriving Repr, DecidableEq

/-- The column names of the `files` table exactly as declared in
`app/models/file.py`, in declaration order. -/
def filesTableColumns : List String :=
  ["id", "original_name", "stored_name", "path", "size", "uploaded_at", "owner_id"]

/-- A blob stored in the object store: body bytes plus the `ContentType`
recorded by `put_object`. -/
structure S3Object where
  body : List Nat
  contentType : String
deriving Repr, DecidableEq

/-- The object store: an association of keys to objects; `s3Put` overwrites. -/
abbrev S3Store := List (String × S3Object)

/-- `s3.put_object`: stores the object under the key, overwriting any
previous object at that key. -/
def s3Put (store : S3Store) (key : String) (obj : S3Object) : S3Store :=
  (key, obj) :: store.filter (fun kv => kv.1 != key)

/-- `s3.get_object`: `none` models the fetch raising (no blob at the key). -/
def s3Get (store : S3Store) (key : String) : Option S3Object :=
  match store.find? (fun kv => kv.1 == key) with
  | some kv => some kv.2
  | none => none

/-- `s3.delete_object`: removes the key; deleting an absent key succeeds. -/
def s3Delete (store : S3Store) (key : String) : S3Store :=
  store.filter (fun kv => kv.1 != key)

/-- The two backing stores plus the metadata store's id sequence. -/
structure SysState where
  db : List FileMeta
  nextId : Int
  s3 : S3Store
deriving Repr, DecidableEq

/-- A raised `HTTPException(status_code, detail)`. -/
inductive HttpErr where
  | httpException (status : Nat) (detail : String)
deriving Repr, DecidableEq

/-- Outcome of one route handler: a `RedirectResponse`, a raised
`HTTPException`, or a success payload. -/
inductive RouteResult (α : Type) where
  | redirect (url : String)
  | err (e : HttpErr)
  | ok (payload : α)
deriving Repr, DecidableEq

/-- The whitespace characters removed by Python `str.strip()` (ASCII). -/
def pyIsSpace (c : Char) : Bool :=
  c == ' ' || c == '\t' || c == '\n' || c == '\r' || c == '\x0b' || c == '\x0c'

/-- Drop leading whitespace from a character list. -/
def dropWs : List Char → List Char
  | [] => []
  | c :: t => if pyIsSpace c then dropWs t else c :: t

/-- Python `s.strip()`: remove whitespace from both ends. -/
def pyStrip (s : String) : String :=
  ⟨(dropWs (dropWs s.data).reverse).reverse⟩

/-- Python `s.lower()` (ASCII). -/
def pyLower (s : String) : String :=
  ⟨s.data.map Char.toLower⟩

/-- Python `int(s)` on a stripped string, digit-part validity: digits with
single underscores allowed strictly between digits. -/
def digitpartRest : List Char → Bool
  | [] => true
  | '_' :: rest =>
    match rest with
    | [] => false
    | c :: rest2 => c.isDigit && digitpartRest rest2
  | c :: rest => c.isDigit && digitpartRest rest

/-- A valid Python integer digit sequence is non-empty and starts with a
digit. -/
def digitpartOk : List Char → Bool
  | [] => false
  | c :: rest => c.isDigit && digitpartRest rest

/-- Numeric value of a digit sequence, skipping underscore separators. -/
def digitsToNat (cs : List Char) : Nat :=
  cs.foldl (fun acc c => if c == '_' then acc else acc * 10 + (c.toNat - 48)) 0

/-- Python `int(s)` for an ASCII decimal string: strips surrounding
whitespace, allows one optional sign, then a digit part; `none` models the
`ValueError`. -/
def pyInt? (s : String) : Option Int :=
  match (pyStrip s).data with
  | '+' :: rest => if digitpartOk rest then some (Int.ofNat (digitsToNat rest)) else none
  | '-' :: rest => if digitpartOk rest then some (-(Int.ofNat (digitsToNat rest))) else none
  | cs => if digitpartOk cs then some (Int.ofNat (digitsToNat cs)) else none

/-- `get_current_user_id` from `app/routers/files.py`: reads the `user_id`
cookie; an absent or empty cookie, or one that does not parse as an integer,
yields no identity. -/
def get_current_user_id (cookie : Option String) : Option Int :=
  match cookie with
  | none => none
  | some s => if s = "" then none else pyInt? s

/-- The handlers' guard `if not user_id:` on the resolver's result: Python
truthiness is false for both `None` and `0`. -/
def pyFalsyInt : Option Int → Bool
  | none => true
  | some n => n == 0

/-- Python `x or dflt` on an optional string (`None` and `""` are falsy). -/
def pyOrStr (x : Option String) (dflt : String) : String :=
  match x with
  | none => dflt
  | some s => if s = "" then dflt else s

/-- The ownership-scoped lookup shared by download/rename/delete:
`db.query(FileMeta).filter(FileMeta.id == file_id, FileMeta.owner_id == user_id).first()`. -/
def findFile (db : List FileMeta) (file_id owner : Int) : Option FileMeta :=
  db.find? (fun f => f.id == file_id && f.owner_id == owner)

/-- ORM update of `file.original_name` on the row returned by `.first()`:
rewrites the first matching row only. -/
def updateName : List FileMeta → Int → Int → String → List FileMeta
  | [], _, _, _ => []
  | f :: rest, fid, uid, nm =>
    if f.id == fid && f.owner_id == uid then { f with original_name := nm } :: rest
    else f :: updateName rest fid uid nm

/-- ORM `db.delete(file)` on the row returned by `.first()`: removes the
first matching row only. -/
def deleteFirst : List FileMeta → Int → Int → List FileMeta
  | [], _, _ => []
  | f :: rest, fid, uid =>
    if f.id == fid && f.owner_id == uid then rest
    else f :: deleteFirst rest fid uid

/-- Does the first list start with the second? -/
def leadMatch : List Char → List Char → Bool
  | _, [] => true
  | [], _ :: _ => false
  | x :: xs, y :: ys => x == y && leadMatch xs ys

/-- Substring containment on character lists, modelling SQL
`ilike('%pat%')` after both sides are lowered. -/
def containsSub : List Char → List Char → Bool
  | [], needle => leadMatch [] needle
  | h :: t, needle => leadMatch (h :: t) needle || containsSub t needle

/-- Insert into a list kept in descending `uploaded_at` order. -/
def insertDesc (f : FileMeta) : List FileMeta → List FileMeta
  | [] => [f]
  | g :: t => if g.uploaded_at ≤ f.uploaded_at then f :: g :: t else g :: insertDesc f t

/-- `order_by(FileMeta.uploaded_at.desc())`: newest first. -/
def sortDesc : List FileMeta → List FileMeta
  | [] => []
  | f :: t => insertDesc f (sortDesc t)

/-- SQL `SUM(size)` over a query: `NULL` (here `none`) when there are no
rows. -/
def sqlSum (l : List Nat) : Option Nat :=
  match l with
  | [] => none
  | _ => some l.sum

/-- The handlers' `total_storage_result if total_storage_result else 0` on
the scalar returned by the SUM query (`None` and `0` are falsy). -/
def pyOrZero (x : Option Nat) : Nat :=
  match x with
  | none => 0
  | some n => if n == 0 then 0 else n

/-- The handlers' test `search and search.strip()`: a search is active only
when present and non-blank. -/
def searchActive : Option String → Bool
  | none => false
  | some s => pyStrip s != ""

/-- Dashboard statistics computed by `list_files`. -/
structure Stats where
  total_files : Nat
  total_storage : Nat
  recent_files : Nat
deriving Repr, DecidableEq

/-- The data handed to the `home.html` template by `list_files`;
`stats = none` models the empty stats dict. -/
structure FilesPage where
  files : List FileMeta
  stats : Option Stats
  searchQuery : String
deriving Repr, DecidableEq

/-- `list_files` from `app/routers/files.py`: redirect when unauthenticated;
stats over the unfiltered owner set only when no search is active; the listing
filtered by case-insensitive substring when a search is active, ordered by
`uploaded_at` descending.  `now` is the current unix time. -/
def list_files (st : SysState) (cookie : Option String) (search : Option String)
    (now : Nat) : RouteResult FilesPage :=
  let uid := get_current_user_id cookie
  if pyFalsyInt uid then .redirect "/login"
  else
    let user := uid.getD 0
    let allFiles := st.db.filter (fun f => f.owner_id == user)
    let stats : Option Stats :=
      if searchActive search then none
      else
        let total_files := allFiles.length
        let total_storage := pyOrZero (sqlSum (allFiles.map (fun f => f.size)))
        let sevenDaysAgo := now - 7 * 86400
        let recent_files :=
          (allFiles.filter (fun f => sevenDaysAgo ≤ f.uploaded_at)).length
        some { total_files := total_files, total_storage := total_storage,
               recent_files := recent_files }
    let filtered :=
      match search with
      | none => allFiles
      | some s =>
        if pyStrip s != "" then
          allFiles.filter
            (fun f => containsSub (pyLower f.original_name).data (pyLower (pyStrip s)).data)
        else allFiles
    .ok { files := sortDesc filtered, stats := stats,
          searchQuery := match search with | none => "" | some s => s }

/-- `upload_file` from `app/routers/files.py`: derives the S3 key as
`f"{user_id}/{int(time.time())}_{upload.filename}"`, writes the blob, then
inserts the metadata row. -/
def upload_file (st : SysState) (cookie : Option String) (filename : String)
    (content_type : Option String) (content : List Nat) (now : Nat) :
    RouteResult Unit × SysState :=
  let uid := get_current_user_id cookie
  if pyFalsyInt uid then (.redirect "/login", st)
  else
    let user := uid.getD 0
    let key := s!"{user}/{now}_{filename}"
    let ct := pyOrStr content_type "application/octet-stream"
    let s3Next := s3Put st.s3 key { body := content, contentType := ct }
    let meta : FileMeta :=
      { id := st.nextId, original_name := filename, stored_name := key,
        path := key, size := content.length, uploaded_at := now,
        owner_id := user }
    (.redirect "/files", { db := st.db ++ [meta], nextId := st.nextId + 1, s3 := s3Next })

/-- Payload of a successful download: the body bytes the streaming response
carries, its media type, and the filename used in `Content-Disposition`. -/
structure DownloadPayload where
  body : List Nat
  mediaType : String
  filename : String
deriving Repr, DecidableEq

/-- `download_file` from `app/routers/files.py`: ownership-scoped lookup,
then the blob fetch; a failing fetch raises 404 "File missing in cloud",
distinct from the 404 "File not found" of an absent row. -/
def download_file (st : SysState) (cookie : Option String) (file_id : Int) :
    RouteResult DownloadPayload :=
  let uid := get_current_user_id cookie
  if pyFalsyInt uid then .redirect "/login"
  else
    let user := uid.getD 0
    match findFile st.db file_id user with
    | none => .err (.httpException 404 "File not found")
    | some file =>
      match s3Get st.s3 file.stored_name with
      | none => .err (.httpException 404 "File missing in cloud")
      | some obj =>
        let mt := if obj.contentType = "" then "application/octet-stream" else obj.contentType
        .ok { body := obj.body, mediaType := mt, filename := file.original_name }

/-- `rename_file` from `app/routers/files.py`: trims the submitted name and
rejects a blank one with a redirect carrying `error=Invalid filename` before
any lookup; otherwise the ownership-scoped lookup, then an update of
`original_name` only. -/
def rename_file (st : SysState) (cookie : Option String) (file_id : Int)
    (new_name_form : Option String) : RouteResult Unit × SysState :=
  let uid := get_current_user_id cookie
  if pyFalsyInt uid then (.redirect "/login", st)
  else
    let user := uid.getD 0
    let new_name := pyStrip (new_name_form.getD "")
    if new_name = "" then (.redirect "/files?error=Invalid%20filename", st)
    else
      match findFile st.db file_id user with
      | none => (.err (.httpException 404 "File not found"), st)
      | some _ =>
        (.redirect "/files", { st with db := updateName st.db file_id user new_name })

/-- `delete_file` from `app/routers/files.py`: ownership-scoped lookup, then
the S3 deletion inside `try/except` (a raising deletion is swallowed, modelled
by `blobDeleteFails`), then the unconditional row deletion. -/
def delete_file (st : SysState) (cookie : Option String) (file_id : Int)
    (blobDeleteFails : Bool) : RouteResult Unit × SysState :=
  let uid := get_current_user_id cookie
  if pyFalsyInt uid then (.redirect "/login", st)
  else
    let user := uid.getD 0
    match findFile st.db file_id user with
    | none => (.err (.httpException 404 "File not found"), st)
    | some file =>
      let s3Next := if blobDeleteFails then st.s3 else s3Delete st.s3 file.stored_name
      (.redirect "/files", { st with db := deleteFirst st.db file_id user, s3 := s3Next })

/-! ### Helper lemmas -/

/-- An authenticated, non-zero identity passes the handlers' truthiness
guard. -/
theorem pyFalsyInt_false_of_ne (cookie : Option String) (u : Int)
    (hu : get_current_user_id cookie = some u) (h0 : u ≠ 0) :
    pyFalsyInt (get_current_user_id cookie) = false := by
  rw [hu]
  simpa [pyFalsyInt] using h0

/-- The ownership-scoped lookup misses when no row carries both the file id
and the owner id. -/
theorem findFile_eq_none (db : List FileMeta) (fid u : Int)
    (h : ∀ f ∈ db, f.id = fid → f.owner_id ≠ u) :
    findFile db fid u = none := by
  apply List.find?_eq_none.mpr
  intro f hf hc
  obtain ⟨h1, h2⟩ : f.id = fid ∧ f.owner_id = u := by simpa using hc
  exact h f hf h1 h2

/-- A freshly put object is what a get at the same key returns. -/
theorem s3Get_s3Put_self (store : S3Store) (key : String) (obj : S3Object) :
    s3Get (s3Put store key obj) key = some obj := by
  simp [s3Get, s3Put]

/-- `pyOrStr` with a non-empty default never yields the empty string. -/
theorem pyOrStr_ne_empty (x : Option String) (dflt : String) (hd : dflt ≠ "") :
    pyOrStr x dflt ≠ "" := by
  cases x with
  | none => simpa [pyOrStr] using hd
  | some s =>
    by_cases hs : s = "" <;> simp [pyOrStr, hs, hd]

/-! ### Claims -/

/-- C10: a cookie whose value parses to the integer `0` yields identity `0`
from the resolver, yet every registry operation's truthiness guard conflates
`0` with no identity, so such a caller is always redirected to `/login` with
no state change and can never reach any file operation. -/
theorem c10_zero_identity_is_unauthenticated (st : SysState) (cookie : Option String)
    (hzero : get_current_user_id cookie = some 0)
    (search : Option String) (now : Nat) (filename : String) (ct : Option String)
    (content : List Nat) (fid : Int) (nmf : Option String) (b : Bool) :
    list_files st cookie search now = .redirect "/login"
    ∧ upload_file st cookie filename ct content now = (.redirect "/login", st)
    ∧ download_file st cookie fid = .redirect "/login"
    ∧ rename_file st cookie fid nmf = (.redirect "/login", st)
    ∧ delete_file st cookie fid b = (.redirect "/login", st) := by
  refine ⟨?_, ?_, ?_, ?_, ?_⟩ <;>
    simp [list_files, upload_file, download_file, rename_file, delete_file,
      hzero, pyFalsyInt]

/-- C10 witness: the concrete cookie `"0"` resolves to identity `0` and is
redirected to login by every operation. -/
theorem c10_witness :
    get_current_user_id (some "0") = some 0
    ∧ list_files { db := [], nextId := 1, s3 := [] } (some "0") none 500
        = .redirect "/login" := by
  have h : get_current_user_id (some "0") = some 0 := by decide
  exact ⟨h, (c10_zero_identity_is_unauthenticated
    { db := [], nextId := 1, s3 := [] } (some "0") h none 500 "a" none [] 1 none true).1⟩

/-- C1: for an authenticated owner, Download, Rename and Delete on a file id
carried by no row of that owner — whether the id belongs to another owner's
row or to no row at all — fail with the identical 404 "File not found"
signal, because the lookup `findFile` filters by file id and owner id
together. -/
theorem c1_ownership_isolation (st : SysState) (cookie : Option String) (u : Int)
    (hu : get_current_user_id cookie = some u) (h0 : u ≠ 0) (fid : Int)
    (hmis : ∀ f ∈ st.db, f.id = fid → f.owner_id ≠ u)
    (nm : String) (hnm : pyStrip nm ≠ "") (b : Bool) :
    findFile st.db fid u = none
    ∧ download_file st cookie fid = .err (.httpException 404 "File not found")
    ∧ (rename_file st cookie fid (some nm)).1 = .err (.httpException 404 "File not found")
    ∧ (delete_file st cookie fid b).1 = .err (.httpException 404 "File not found") := by
  have hf : findFile st.db fid u = none := findFile_eq_none st.db fid u hmis
  refine ⟨hf, ?_, ?_, ?_⟩ <;>
    simp [download_file, rename_file, delete_file, hu, hf, hnm, pyFalsyInt, h0]

/-- C1 witness: owner 2 probing owner 1's file id 1, and owner 1 probing the
absent id 99, both hit the same 404. -/
theorem c1_witness :
    (∀ f ∈ [({ id := 1, original_name := "a.txt", stored_name := "1/100_a.txt",
               path := "1/100_a.txt", size := 2, uploaded_at := 100,
               owner_id := 1 } : FileMeta)], f.id = 1 → f.owner_id ≠ 2)
    ∧ download_file
        { db := [{ id := 1, original_name := "a.txt", stored_name := "1/100_a.txt",
                   path := "1/100_a.txt", size := 2, uploaded_at := 100,
                   owner_id := 1 }], nextId := 2,
          s3 := [("1/100_a.txt", { body := [104, 105], contentType := "text/plain" })] }
        (some "2") 1 = .err (.httpException 404 "File not found") := by
  refine ⟨by decide, ?_⟩
  exact (c1_ownership_isolation
    { db := [{ id := 1, original_name := "a.txt", stored_name := "1/100_a.txt",
               path := "1/100_a.txt", size := 2, uploaded_at := 100, owner_id := 1 }],
      nextId := 2,
      s3 := [("1/100_a.txt", { body := [104, 105], contentType := "text/plain" })] }
    (some "2") 2 (by decide) (by decide) 1 (by decide) "b" (by decide) true).2.1

/-- C2 counterexample: contrary to the claim, the `files` table declared in
`app/models/file.py` has no `content_type` column. -/
theorem c2_no_content_type_column : "content_type" ∉ filesTableColumns := by
  decide

/-- C2 amended: the `files` table's columns are exactly id, original_name,
stored_name, path, size, uploaded_at, owner_id — there is no `content_type`
column (and the blob key column is named `stored_name`, not `stored_key`);
the content type is captured at upload time only as the `ContentType` of the
object written to the object store. -/
theorem c2_schema_and_content_type (st : SysState) (cookie : Option String)
    (u : Int) (hu : get_current_user_id cookie = some u) (h0 : u ≠ 0)
    (filename : String) (ct : Option String) (content : List Nat) (now : Nat) :
    filesTableColumns
      = ["id", "original_name", "stored_name", "path", "size", "uploaded_at", "owner_id"]
    ∧ "content_type" ∉ filesTableColumns
    ∧ s3Get (upload_file st cookie filename ct content now).2.s3 (s!"{u}/{now}_{filename}")
        = some { body := content, contentType := pyOrStr ct "application/octet-stream" } := by
  refine ⟨rfl, by decide, ?_⟩
  simp only [upload_file, hu, pyFalsyInt, Option.getD_some]
  simp [h0, s3Get_s3Put_self]

/-- C2 witness: a concrete authenticated upload whose content type lands on
the stored S3 object. -/
theorem c2_witness :
    get_current_user_id (some "1") = some 1
    ∧ s3Get (upload_file { db := [], nextId := 1, s3 := [] } (some "1") "a.txt"
          (some "text/plain") [104, 105] 100).2.s3 (s!"{(1 : Int)}/{(100 : Nat)}_a.txt")
        = some { body := [104, 105], contentType := pyOrStr (some "text/plain") "application/octet-stream" } :=
  ⟨by decide, (c2_schema_and_content_type { db := [], nextId := 1, s3 := [] }
    (some "1") 1 (by decide) (by decide) "a.txt" (some "text/plain") [104, 105] 100).2.2⟩

/-- C3: when the metadata row exists for the authenticated owner but the blob
fetch fails, Download raises 404 "File missing in cloud", a value distinct
from the 404 "File not found" raised whenever the ownership-scoped lookup
misses. -/
theorem c3_blob_missing_distinct (st : SysState) (cookie : Option String)
    (u : Int) (hu : get_current_user_id cookie = some u) (h0 : u ≠ 0)
    (fid : Int) (f : FileMeta) (hrow : findFile st.db fid u = some f)
    (hblob : s3Get st.s3 f.stored_name = none) :
    download_file st cookie fid = .err (.httpException 404 "File missing in cloud")
    ∧ HttpErr.httpException 404 "File missing in cloud"
        ≠ HttpErr.httpException 404 "File not found"
    ∧ ∀ st2 : SysState, findFile st2.db fid u = none →
        download_file st2 cookie fid = .err (.httpException 404 "File not found") := by
  refine ⟨?_, by decide, ?_⟩
  · simp [download_file, hu, pyFalsyInt, h0, hrow, hblob]
  · intro st2 hnone
    simp [download_file, hu, pyFalsyInt, h0, hnone]

/-- C3 witness: owner 1's row for id 1 exists but its blob is gone;
download fails "File missing in cloud", while the absent id on an empty
store fails "File not found". -/
theorem c3_witness :
    findFile [{ id := 1, original_name := "a.txt", stored_name := "1/100_a.txt",
                path := "1/100_a.txt", size := 2, uploaded_at := 100,
                owner_id := 1 }] 1 1
      = some { id := 1, original_name := "a.txt", stored_name := "1/100_a.txt",
               path := "1/100_a.txt", size := 2, uploaded_at := 100, owner_id := 1 }
    ∧ download_file
        { db := [{ id := 1, original_name := "a.txt", stored_name := "1/100_a.txt",
                   path := "1/100_a.txt", size := 2, uploaded_at := 100,
                   owner_id := 1 }], nextId := 2, s3 := [] }
        (some "1") 1 = .err (.httpException 404 "File missing in cloud") :=
  ⟨by decide, (c3_blob_missing_distinct
    { db := [{ id := 1, original_name := "a.txt", stored_name := "1/100_a.txt",
               path := "1/100_a.txt", size := 2, uploaded_at := 100, owner_id := 1 }],
      nextId := 2, s3 := [] }
    (some "1") 1 (by decide) (by decide) 1
    { id := 1, original_name := "a.txt", stored_name := "1/100_a.txt",
      path := "1/100_a.txt", size := 2, uploaded_at := 100, owner_id := 1 }
    (by decide) (by decide)).1⟩

/-- C9: Rename validates the submitted name before the ownership-scoped
lookup: for every file id whatsoever, a name that is blank after stripping is
rejected with the `Invalid filename` redirect — never the 404 — and the
state of both stores is untouched. -/
theorem c9_rename_validates_name_first (st : SysState) (cookie : Option String)
    (u : Int) (hu : get_current_user_id cookie = some u) (h0 : u ≠ 0)
    (fid : Int) (nmf : Option String) (hblank : pyStrip (nmf.getD "") = "") :
    rename_file st cookie fid nmf = (.redirect "/files?error=Invalid%20filename", st)
    ∧ (rename_file st cookie fid nmf).1 ≠ .err (.httpException 404 "File not found") := by
  have h : rename_file st cookie fid nmf
      = (.redirect "/files?error=Invalid%20filename", st) := by
    simp [rename_file, hu, pyFalsyInt, h0, hblank]
  exact ⟨h, by rw [h]; simp⟩

/-- C9 witness: a whitespace-only rename of a nonexistent id 99 is rejected
as invalid input with no state change. -/
theorem c9_witness :
    pyStrip ((some "   ").getD "") = ""
    ∧ rename_file { db := [], nextId := 1, s3 := [] } (some "1") 99 (some "   ")
        = (.redirect "/files?error=Invalid%20filename", { db := [], nextId := 1, s3 := [] }) :=
  ⟨by decide, (c9_rename_validates_name_first { db := [], nextId := 1, s3 := [] }
    (some "1") 1 (by decide) (by decide) 99 (some "   ") (by decide)).1⟩

/-- `updateName` preserves the table's length. -/
theorem updateName_length (db : List FileMeta) (fid uid : Int) (nm : String) :
    (updateName db fid uid nm).length = db.length := by
  induction db with
  | nil => rfl
  | cons f t ih =>
    by_cases h : (f.id == fid && f.owner_id == uid) = true
    · simp [updateName, h]
    · simp [updateName, h, ih]

/-- Row-by-row effect of `updateName`: every position is either untouched or
holds the original row with only `original_name` replaced, and the latter only
where the row matched the (file id, owner id) pair. -/
theorem updateName_get? (db : List FileMeta) (fid uid : Int) (nm : String)
    (i : Nat) :
    (updateName db fid uid nm).get? i = db.get? i
    ∨ ∃ g, db.get? i = some g ∧ g.id = fid ∧ g.owner_id = uid
        ∧ (updateName db fid uid nm).get? i = some { g with original_name := nm } := by
  induction db generalizing i with
  | nil => left; rfl
  | cons f t ih =>
    by_cases h : (f.id == fid && f.owner_id == uid) = true
    · obtain ⟨h1, h2⟩ : f.id = fid ∧ f.owner_id = uid := by simpa using h
      cases i with
      | zero => right; exact ⟨f, rfl, h1, h2, by simp [updateName, h]⟩
      | succ j => left; simp [updateName, h]
    · cases i with
      | zero => left; simp [updateName, h]
      | succ j =>
        rcases ih j with hl | ⟨g, hg, hg1, hg2, hg3⟩
        · left; simpa [updateName, h] using hl
        · right; exact ⟨g, by simpa using hg, hg1, hg2, by simpa [updateName, h] using hg3⟩

/-- C4: a successful Rename answers the `/files` redirect and changes only
the matched row's `original_name`: the object store, the id sequence, the
table's length, and every field of every row other than the matched one's
display name are exactly as before. -/
theorem c4_rename_frame (st : SysState) (cookie : Option String) (u : Int)
    (hu : get_current_user_id cookie = some u) (h0 : u ≠ 0) (fid : Int)
    (nm : String) (hnm : pyStrip nm ≠ "") (f : FileMeta)
    (hrow : findFile st.db fid u = some f) :
    (rename_file st cookie fid (some nm)).1 = .redirect "/files"
    ∧ (rename_file st cookie fid (some nm)).2.s3 = st.s3
    ∧ (rename_file st cookie fid (some nm)).2.nextId = st.nextId
    ∧ (rename_file st cookie fid (some nm)).2.db.length = st.db.length
    ∧ ∀ i : Nat,
        (rename_file st cookie fid (some nm)).2.db.get? i = st.db.get? i
        ∨ ∃ g, st.db.get? i = some g ∧ g.id = fid ∧ g.owner_id = u
            ∧ (rename_file st cookie fid (some nm)).2.db.get? i
                = some { g with original_name := pyStrip nm } := by
  have hr : rename_file st cookie fid (some nm)
      = (.redirect "/files",
         { st with db := updateName st.db fid u (pyStrip nm) }) := by
    simp [rename_file, hu, pyFalsyInt, h0, hnm, hrow]
  rw [hr]
  exact ⟨rfl, rfl, rfl, updateName_length st.db fid u (pyStrip nm),
    fun i => updateName_get? st.db fid u (pyStrip nm) i⟩

/-- C4 witness: renaming owner 1's file 1 to `b.pdf` succeeds and leaves the
object store untouched. -/
theorem c4_witness :
    pyStrip "b.pdf" ≠ ""
    ∧ (rename_file
        { db := [{ id := 1, original_name := "a.txt", stored_name := "1/100_a.txt",
                   path := "1/100_a.txt", size := 2, uploaded_at := 100,
                   owner_id := 1 }], nextId := 2,
          s3 := [("1/100_a.txt", { body := [104, 105], contentType := "text/plain" })] }
        (some "1") 1 (some "b.pdf")).2.s3
      = [("1/100_a.txt", { body := [104, 105], contentType := "text/plain" })] :=
  ⟨by decide, ((c4_rename_frame
    { db := [{ id := 1, original_name := "a.txt", stored_name := "1/100_a.txt",
               path := "1/100_a.txt", size := 2, uploaded_at := 100, owner_id := 1 }],
      nextId := 2,
      s3 := [("1/100_a.txt", { body := [104, 105], contentType := "text/plain" })] }
    (some "1") 1 (by decide) (by decide) 1 "b.pdf" (by decide)
    { id := 1, original_name := "a.txt", stored_name := "1/100_a.txt",
      path := "1/100_a.txt", size := 2, uploaded_at := 100, owner_id := 1 }
    (by decide)).2.1)⟩

/-- C5: Upload derives the S3 key exactly as `{owner_id}/{unix_time}_{name}`
— the row inserted for owner `u` at time `now` with display name `filename`
carries that very string as `stored_name` — so a second upload by the same
owner with the same name in the same second derives the same key and its blob
write overwrites the first blob. -/
theorem c5_stored_key_and_overwrite (st : SysState) (cookie : Option String)
    (u : Int) (hu : get_current_user_id cookie = some u) (h0 : u ≠ 0)
    (filename : String) (ct : Option String) (b1 b2 : List Nat) (now : Nat) :
    (upload_file st cookie filename ct b1 now).2.db.getLast?
      = some { id := st.nextId, original_name := filename,
               stored_name := s!"{u}/{now}_{filename}",
               path := s!"{u}/{now}_{filename}",
               size := b1.length, uploaded_at := now, owner_id := u }
    ∧ s3Get (upload_file (upload_file st cookie filename ct b1 now).2
          cookie filename ct b2 now).2.s3 (s!"{u}/{now}_{filename}")
        = some { body := b2, contentType := pyOrStr ct "application/octet-stream" } := by
  constructor
  · simp [upload_file, hu, pyFalsyInt, h0]
  · simp [upload_file, hu, pyFalsyInt, h0, s3Get_s3Put_self]

/-- C5 witness: two same-second uploads of `a.txt` by owner 1; the stored key
is `1/100_a.txt` and the blob at that key after the second upload holds the
second body. -/
theorem c5_witness :
    (upload_file { db := [], nextId := 1, s3 := [] } (some "1") "a.txt"
        (some "text/plain") [104, 105] 100).2.db.getLast?
      = some { id := 1, original_name := "a.txt",
               stored_name := s!"{(1 : Int)}/{(100 : Nat)}_a.txt",
               path := s!"{(1 : Int)}/{(100 : Nat)}_a.txt",
               size := 2, uploaded_at := 100, owner_id := 1 }
    ∧ s3Get (upload_file (upload_file { db := [], nextId := 1, s3 := [] }
          (some "1") "a.txt" (some "text/plain") [104, 105] 100).2
          (some "1") "a.txt" (some "text/plain") [120] 100).2.s3
        (s!"{(1 : Int)}/{(100 : Nat)}_a.txt")
      = some { body := [120],
               contentType := pyOrStr (some "text/plain") "application/octet-stream" } :=
  c5_stored_key_and_overwrite { db := [], nextId := 1, s3 := [] } (some "1") 1
    (by decide) (by decide) "a.txt" (some "text/plain") [104, 105] [120] 100

/-- `deleteFirst` removes exactly one row when the lookup succeeds. -/
theorem deleteFirst_length : ∀ (db : List FileMeta) (fid uid : Int) (f : FileMeta),
    findFile db fid uid = some f → (deleteFirst db fid uid).length + 1 = db.length
  | [], _, _, _, h => by simp [findFile] at h
  | g :: t, fid, uid, f, h => by
    by_cases hp : (g.id == fid && g.owner_id == uid) = true
    · simp [deleteFirst, hp]
    · have ht : findFile t fid uid = some f := by
        simpa [findFile, List.find?_cons, hp] using h
      simp [deleteFirst, hp, deleteFirst_length t fid uid f ht]

/-- When at most one row matches the (file id, owner id) pair, the lookup
misses after `deleteFirst`. -/
theorem deleteFirst_findFile_none :
    ∀ (db : List FileMeta) (fid uid : Int) (f : FileMeta),
    findFile db fid uid = some f →
    (db.filter (fun g => g.id == fid && g.owner_id == uid)).length ≤ 1 →
    findFile (deleteFirst db fid uid) fid uid = none
  | [], _, _, _, h, _ => by simp [findFile] at h
  | g :: t, fid, uid, f, h, huniq => by
    by_cases hp : (g.id == fid && g.owner_id == uid) = true
    · have hto : (t.filter (fun g => g.id == fid && g.owner_id == uid)) = [] := by
        have := huniq
        simp only [List.filter_cons, hp, if_pos, List.length_cons] at this
        exact List.eq_nil_of_length_eq_zero (by omega)
      have : ∀ x ∈ t, ¬ ((x.id == fid && x.owner_id == uid) = true) :=
        List.filter_eq_nil_iff.mp hto
      simp only [deleteFirst, hp, if_pos, findFile]
      exact List.find?_eq_none.mpr this
    · have ht : findFile t fid uid = some f := by
        simpa [findFile, List.find?_cons, hp] using h
      have huniq' : (t.filter (fun g => g.id == fid && g.owner_id == uid)).length ≤ 1 := by
        simpa [List.filter_cons, hp] using huniq
      have := deleteFirst_findFile_none t fid uid f ht huniq'
      simpa [deleteFirst, hp, findFile, List.find?_cons] using this

/-- C6: Delete on an owned row succeeds with the `/files` redirect whether or
not the blob deletion raises — the raise is swallowed and the row deletion is
unconditional: the table shrinks by exactly the matched row (and, when the
table held at most one match, the lookup now misses), while a failing blob
deletion leaves the object store exactly as it was. -/
theorem c6_delete_best_effort (st : SysState) (cookie : Option String) (u : Int)
    (hu : get_current_user_id cookie = some u) (h0 : u ≠ 0) (fid : Int)
    (f : FileMeta) (hrow : findFile st.db fid u = some f)
    (huniq : (st.db.filter (fun g => g.id == fid && g.owner_id == u)).length ≤ 1)
    (b : Bool) :
    (delete_file st cookie fid b).1 = .redirect "/files"
    ∧ (delete_file st cookie fid b).2.db = deleteFirst st.db fid u
    ∧ (delete_file st cookie fid b).2.db.length + 1 = st.db.length
    ∧ findFile (delete_file st cookie fid b).2.db fid u = none
    ∧ (delete_file st cookie fid true).2.s3 = st.s3 := by
  have hd : ∀ bb : Bool, delete_file st cookie fid bb
      = (.redirect "/files",
         { st with db := deleteFirst st.db fid u,
                   s3 := if bb then st.s3 else s3Delete st.s3 f.stored_name }) := by
    intro bb
    simp [delete_file, hu, pyFalsyInt, h0, hrow]
  rw [hd b, hd true]
  exact ⟨rfl, rfl, deleteFirst_length st.db fid u f hrow,
    deleteFirst_findFile_none st.db fid u f hrow huniq, rfl⟩

/-- C6 witness: deleting owner 1's file 1 while the blob deletion raises
still removes the row and leaves the object store as it was. -/
theorem c6_witness :
    findFile [{ id := 1, original_name := "a.txt", stored_name := "1/100_a.txt",
                path := "1/100_a.txt", size := 2, uploaded_at := 100,
                owner_id := 1 }] 1 1
      = some { id := 1, original_name := "a.txt", stored_name := "1/100_a.txt",
               path := "1/100_a.txt", size := 2, uploaded_at := 100, owner_id := 1 }
    ∧ (delete_file
        { db := [{ id := 1, original_name := "a.txt", stored_name := "1/100_a.txt",
                   path := "1/100_a.txt", size := 2, uploaded_at := 100,
                   owner_id := 1 }], nextId := 2,
          s3 := [("1/100_a.txt", { body := [104, 105], contentType := "text/plain" })] }
        (some "1") 1 true).1 = .redirect "/files" :=
  ⟨by decide, ((c6_delete_best_effort
    { db := [{ id := 1, original_name := "a.txt", stored_name := "1/100_a.txt",
               path := "1/100_a.txt", size := 2, uploaded_at := 100, owner_id := 1 }],
      nextId := 2,
      s3 := [("1/100_a.txt", { body := [104, 105], contentType := "text/plain" })] }
    (some "1") 1 (by decide) (by decide) 1
    { id := 1, original_name := "a.txt", stored_name := "1/100_a.txt",
      path := "1/100_a.txt", size := 2, uploaded_at := 100, owner_id := 1 }
    (by decide) (by decide) true).1)⟩

/-- The Python falsy-guard on the SUM scalar yields exactly the sum of the
summed column (an empty query sums to `NULL`, guarded to `0`). -/
theorem pyOrZero_sqlSum (l : List Nat) : pyOrZero (sqlSum l) = l.sum := by
  cases l with
  | nil => rfl
  | cons a t =>
    rw [show sqlSum (a :: t) = some ((a :: t).sum) from rfl]
    by_cases h : (a :: t).sum = 0
    · simp [pyOrZero, h]
    · have hb : ((a :: t).sum == 0) = false := by simpa using h
      simp only [pyOrZero, hb]
      simp

/-- C7: with no search string, List computes its stats over the full owner
set — file count, sum of sizes, and count of uploads within the last 7 days —
while any active search yields no stats at all. -/
theorem c7_stats_over_unfiltered_owner_set (st : SysState) (cookie : Option String)
    (u : Int) (hu : get_current_user_id cookie = some u) (h0 : u ≠ 0) (now : Nat) :
    (∃ page : FilesPage,
        list_files st cookie none now = .ok page
        ∧ page.stats = some
            { total_files := (st.db.filter (fun f => f.owner_id == u)).length,
              total_storage :=
                ((st.db.filter (fun f => f.owner_id == u)).map (fun f => f.size)).sum,
              recent_files :=
                ((st.db.filter (fun f => f.owner_id == u)).filter
                    (fun f => now - 7 * 86400 ≤ f.uploaded_at)).length })
    ∧ ∀ s : String, pyStrip s ≠ "" →
        ∃ page : FilesPage,
          list_files st cookie (some s) now = .ok page ∧ page.stats = none := by
  constructor
  · refine ⟨{ files := sortDesc (st.db.filter (fun f => f.owner_id == u)),
              stats := some
                { total_files := (st.db.filter (fun f => f.owner_id == u)).length,
                  total_storage := pyOrZero (sqlSum
                    ((st.db.filter (fun f => f.owner_id == u)).map (fun f => f.size))),
                  recent_files := ((st.db.filter (fun f => f.owner_id == u)).filter
                    (fun f => now - 7 * 86400 ≤ f.uploaded_at)).length },
              searchQuery := "" }, ?_, ?_⟩
    · simp [list_files, hu, pyFalsyInt, h0, searchActive]
    · simp [pyOrZero_sqlSum]
  · intro s hs
    refine ⟨{ files := sortDesc ((st.db.filter (fun f => f.owner_id == u)).filter
                (fun f => containsSub (pyLower f.original_name).data
                  (pyLower (pyStrip s)).data)),
              stats := none, searchQuery := s }, ?_, rfl⟩
    simp [list_files, hu, pyFalsyInt, h0, searchActive, hs]

/-- C7 witness: owner 7 with three files sized 10, 20 and 30, all uploaded
within the last hour, gets stats {total_files 3, total_storage 60,
recent_files 3}. -/
theorem c7_witness :
    ∃ page : FilesPage,
      list_files
        { db := [ { id := 1, original_name := "a", stored_name := "7/996401_a",
                    path := "7/996401_a", size := 10, uploaded_at := 996401,
                    owner_id := 7 },
                  { id := 2, original_name := "b", stored_name := "7/996402_b",
                    path := "7/996402_b", size := 20, uploaded_at := 996402,
                    owner_id := 7 },
                  { id := 3, original_name := "c", stored_name := "7/996403_c",
                    path := "7/996403_c", size := 30, uploaded_at := 996403,
                    owner_id := 7 } ],
          nextId := 4, s3 := [] }
        (some "7") none 1000000 = .ok page
      ∧ page.stats = some { total_files := 3, total_storage := 60, recent_files := 3 } :=
  (c7_stats_over_unfiltered_owner_set
    { db := [ { id := 1, original_name := "a", stored_name := "7/996401_a",
                path := "7/996401_a", size := 10, uploaded_at := 996401, owner_id := 7 },
              { id := 2, original_name := "b", stored_name := "7/996402_b",
                path := "7/996402_b", size := 20, uploaded_at := 996402, owner_id := 7 },
              { id := 3, original_name := "c", stored_name := "7/996403_c",
                path := "7/996403_c", size := 30, uploaded_at := 996403, owner_id := 7 } ],
      nextId := 4, s3 := [] }
    (some "7") 7 (by decide) (by decide) 1000000).1

/-- The ownership-scoped lookup finds a freshly appended row when no earlier
row carries its id. -/
theorem findFile_append_fresh : ∀ (db : List FileMeta) (m : FileMeta) (u : Int),
    (∀ f ∈ db, f.id ≠ m.id) → m.owner_id = u →
    findFile (db ++ [m]) m.id u = some m
  | [], m, u, _, hm => by simp [findFile, List.find?, hm]
  | g :: t, m, u, h, hm => by
    have hg : (g.id == m.id && g.owner_id == u) = false := by
      have hne : g.id ≠ m.id := h g (by simp)
      simp [hne]
    have ht := findFile_append_fresh t m u (fun x hx => h x (by simp [hx])) hm
    simpa [findFile, List.find?_cons, hg] using ht

/-- C8: uploading a byte string and immediately downloading the file id just
created (the metadata store's next id, fresh for the table) returns exactly
the uploaded bytes, with the uploaded display name as the suggested
filename. -/
theorem c8_upload_download_roundtrip (st : SysState) (cookie : Option String)
    (u : Int) (hu : get_current_user_id cookie = some u) (h0 : u ≠ 0)
    (filename : String) (ct : Option String) (content : List Nat) (now : Nat)
    (hfresh : ∀ f ∈ st.db, f.id ≠ st.nextId) :
    download_file (upload_file st cookie filename ct content now).2 cookie st.nextId
      = .ok { body := content,
              mediaType := pyOrStr ct "application/octet-stream",
              filename := filename } := by
  have hup : (upload_file st cookie filename ct content now).2
      = { db := st.db ++ [{ id := st.nextId, original_name := filename,
                            stored_name := s!"{u}/{now}_{filename}",
                            path := s!"{u}/{now}_{filename}",
                            size := content.length, uploaded_at := now,
                            owner_id := u }],
          nextId := st.nextId + 1,
          s3 := s3Put st.s3 (s!"{u}/{now}_{filename}")
            { body := content, contentType := pyOrStr ct "application/octet-stream" } } := by
    simp [upload_file, hu, pyFalsyInt, h0]
  have hfind : findFile
      (st.db ++ [{ id := st.nextId, original_name := filename,
                   stored_name := s!"{u}/{now}_{filename}",
                   path := s!"{u}/{now}_{filename}",
                   size := content.length, uploaded_at := now,
                   owner_id := u }]) st.nextId u
      = some { id := st.nextId, original_name := filename,
               stored_name := s!"{u}/{now}_{filename}", path := s!"{u}/{now}_{filename}",
               size := content.length, uploaded_at := now, owner_id := u } :=
    findFile_append_fresh st.db _ u (fun f hf => hfresh f hf) rfl
  have hne : pyOrStr ct "application/octet-stream" ≠ "" :=
    pyOrStr_ne_empty ct "application/octet-stream" (by decide)
  simp [download_file, hup, hu, pyFalsyInt, h0, hfind, s3Get_s3Put_self, hne]

/-- C8 witness: owner 1 uploads `a.txt` with bytes `hi` and downloads the
fresh id 1, getting back exactly those bytes and that name. -/
theorem c8_witness :
    (∀ f ∈ ([] : List FileMeta), f.id ≠ 1)
    ∧ download_file (upload_file { db := [], nextId := 1, s3 := [] } (some "1")
          "a.txt" (some "text/plain") [104, 105] 100).2 (some "1") 1
      = .ok { body := [104, 105],
              mediaType := pyOrStr (some "text/plain") "application/octet-stream",
              filename := "a.txt" } :=
  ⟨by simp, c8_upload_download_roundtrip { db := [], nextId := 1, s3 := [] }
    (some "1") 1 (by decide) (by decide) "a.txt" (some "text/plain") [104, 105] 100
    (by simp)⟩

end MiniGDrive
